import Mathlib

/-!
Verification of the query-pipeline Flask service (src/main.py).

The module wires three pipeline stages behind a `POST /query` endpoint:

- `generate_kubernetes_command` (Command Synthesizer): asks the OpenAI chat
  API for a one-line Python snippet and returns it whitespace-stripped,
  or `None` when the client is unavailable or the call raises.
- `execute_generated_command` (Command Executor): removes code-fence
  markers from the snippet, runs it with `exec(command, globals(), local_vars)`,
  and returns the binding of the slot `result` in `local_vars`, a fixed
  fallback string when the slot is unbound, a fixed message on
  `AttributeError`, or an error string on any other exception.
- `format_result_with_gpt` (Result Formatter): asks the chat API to
  summarise the raw result, returning fixed error strings on failure.

`create_query` sequences the stages and maps outcomes to HTTP responses.
Failures of the execute and format stages are detected by the Python
substring test `"Error" in value`, which raises `TypeError` on
non-iterable values; that raise is caught by the outer handler and turned
into a 500 response.

The embedding below is shallow: external effects (the two chat-completion
calls and the `exec` of the synthesized snippet) are passed in as explicit
behaviours, every data operation of the source is translated to an
executable Lean function, and Python string/value semantics relevant to
the handler (falsiness, the `in` operator, `str.replace`, `str.strip`)
are modelled explicitly.
-/

set_option autoImplicit false

namespace QueryAgent

/-- Python values that can flow through the pipeline: strings, integers,
lists, and `None`. These cover every value the handler inspects. -/
inductive PyVal where
  | str (s : String)
  | int (n : Int)
  | list (vs : List PyVal)
  | none_

/-- Python truthiness (`if not x`): `None`, the empty string, `0` and the
empty list are falsy. -/
def pyFalsy : PyVal → Bool
  | .none_ => true
  | .str s => s = ""
  | .int n => n = 0
  | .list vs => vs.isEmpty

/-- Does `pat` occur as a contiguous sublist of `s`? Model of the Python
substring operator `pat in s` for strings. -/
def containsSubList : List Char → List Char → Bool
  | [], pat => pat.isEmpty
  | c :: rest, pat => pat.isPrefixOf (c :: rest) || containsSubList rest pat

/-- String wrapper for `containsSubList`: Python `pat in s`. -/
def containsSub (s pat : String) : Bool :=
  containsSubList s.data pat.data

/-- One pass of Python `str.replace(old, new)` with an explicit fuel:
replaces non-overlapping occurrences of `old` left to right. The fuel is
always instantiated with the length of the scanned list, which suffices
because each step consumes at least one character when `old` is nonempty. -/
def pyReplaceGo : Nat → List Char → List Char → List Char → List Char
  | 0, s, _, _ => s
  | _ + 1, [], _, _ => []
  | fuel + 1, c :: rest, old, new =>
    if old.isPrefixOf (c :: rest) ∧ old ≠ [] then
      new ++ pyReplaceGo fuel (List.drop (old.length - 1) rest) old new
    else
      c :: pyReplaceGo fuel rest old new

/-- Python `s.replace(old, new)` (all non-overlapping occurrences, left to
right). -/
def pyReplace (s old new : String) : String :=
  String.mk (pyReplaceGo s.data.length s.data old.data new.data)

/-- Python `s.strip()`: remove whitespace from both ends. -/
def pyStrip (s : String) : String :=
  String.mk (((s.data.dropWhile Char.isWhitespace).reverse.dropWhile Char.isWhitespace).reverse)

/-- Top-level imports of src/main.py (lines 1-3 plus the guarded imports
of the two try blocks, lines 17 and 30). The name `os` is never imported. -/
def moduleImports : List String :=
  ["logging", "flask", "pydantic", "kubernetes", "openai"]

/-- Names bound at module level in src/main.py and hence present in
`globals()` (imports, the Flask app, the two client handles, the response
model and the four functions). -/
def moduleGlobalNames : List String :=
  ["logging", "Flask", "request", "jsonify", "BaseModel", "ValidationError",
   "app", "client", "config", "v1", "openai", "QueryResponse",
   "generate_kubernetes_command", "execute_generated_command",
   "format_result_with_gpt", "create_query"]

/-- Routes registered on the Flask app in src/main.py: the only
`app.route` decoration is line 129, `/query` with methods `POST`. -/
def appRoutes : List (String × List String) :=
  [("/query", ["POST"])]

/-- Can a bare name be resolved at module level of src/main.py? Only the
top-level imports bind names used by the init blocks; `os` is not among
them and is not a builtin. -/
def moduleResolves (n : String) : Bool :=
  moduleImports.contains n

/-- OpenAI init block (src/main.py lines 28-38): line 31 evaluates
`openai.api_key = os.getenv("OPENAI_API_KEY")`, which first resolves the
name `os`; a failed resolution raises `NameError`, caught by the
`except Exception` clause which rebinds `openai = None`. The handle is
available afterwards exactly when the name resolved. -/
def initOpenaiAvailable (nameResolves : String → Bool) : Bool :=
  nameResolves "os"

/-- Whether the module-level `openai` handle is non-None after import of
src/main.py as written. -/
def moduleOpenaiAvailable : Bool :=
  initOpenaiAvailable moduleResolves

/-- Exceptions that `exec` of the synthesized snippet can raise, as the
Executor distinguishes them (src/main.py lines 91-96). -/
inductive PyExn where
  | attributeError (msg : String)
  | otherError (msg : String)
  deriving Repr, DecidableEq

/-- generate_kubernetes_command (src/main.py lines 46-74). `openaiAvailable`
is the module `openai` handle being non-None; `chatCompletion` is the
outcome of the `openai.ChatCompletion.create` call on this query: `ok`
carries `response.choices[0].message["content"]`, `error` carries the
raised exception message. On success the content is returned
whitespace-stripped; on an unavailable client or a raised call `None` is
returned (the exception message is only logged). -/
def generate_kubernetes_command (openaiAvailable : Bool)
    (chatCompletion : Except String String) : Option String :=
  if !openaiAvailable then
    none
  else
    match chatCompletion with
    | .ok content => some (pyStrip content)
    | .error _ => none

/-- The fence-stripping of src/main.py line 83:
`command.replace("```python", "").replace("```", "").strip()`. -/
def stripFences (command : String) : String :=
  pyStrip (pyReplace (pyReplace command "```python" "") "```" "")

/-- execute_generated_command (src/main.py lines 77-96). `run` is the
behaviour of `exec(cleaned, globals(), local_vars)` followed by
`local_vars.get("result", ...)`: `ok (some v)` means the run finished and
bound the slot `result` to `v`, `ok none` means a clean run that left the
slot unbound, `error` means the run raised. The source returns the fixed
fallback "No result returned" for an unbound slot, a fixed message on
`AttributeError`, and "Error executing command: " plus the message on any
other exception; a falsy command short-circuits to "No command generated.". -/
def execute_generated_command (run : String → Except PyExn (Option PyVal))
    (command : String) : PyVal :=
  if command = "" then
    .str "No command generated."
  else
    match run (stripFences command) with
    | .ok (some v) => v
    | .ok none => .str "No result returned"
    | .error (.attributeError _) => .str "Kubernetes client method not supported on Minikube."
    | .error (.otherError msg) => .str ("Error executing command: " ++ msg)

/-- format_result_with_gpt (src/main.py lines 99-126). `chatCompletion` is
the outcome of the summarisation call for this query and raw result. The
fixed strings of the source are returned when the client is unavailable or
the call raises. -/
def format_result_with_gpt (openaiAvailable : Bool)
    (chatCompletion : Except String String) : String :=
  if !openaiAvailable then
    "Error: OpenAI client not available."
  else
    match chatCompletion with
    | .ok content => pyStrip content
    | .error _ => "Error formatting answer."

/-- Python `"Error" == v` for a list element `v`: true exactly for the
string "Error" (cross-type equality is false in Python). -/
def pyEqErrorStr : PyVal → Bool
  | .str s => s = "Error"
  | _ => false

/-- Python `"Error" in v` (src/main.py lines 153 and 159): substring test
on strings, element test on lists, `TypeError` on ints and `None`. The
error carries the exact CPython exception message, quote marks included
(written with \x27 escapes). -/
def pyContainsError : PyVal → Except String Bool
  | .str s => .ok (containsSub s "Error")
  | .list vs => .ok (vs.any pyEqErrorStr)
  | .int _ => .error "argument of type \x27int\x27 is not iterable"
  | .none_ => .error "argument of type \x27NoneType\x27 is not iterable"

/-- Which pipeline stages ran while handling a request. -/
structure StageCalls where
  synthCalled : Bool
  execCalled : Bool
  formatCalled : Bool
  deriving Repr, DecidableEq

/-- No stage has run. -/
def noCalls : StageCalls := ⟨false, false, false⟩

/-- Result of the request handler: HTTP status, JSON body (an association
list of fields), and the trace of which stages ran. -/
structure HandlerResult where
  status : Nat
  body : List (String × PyVal)
  calls : StageCalls

/-- Python `request_data.get(key)`: the bound value, or `None` when the
key is absent. -/
def dictGet (fields : List (String × PyVal)) (key : String) : PyVal :=
  match fields.find? (fun p => p.1 = key) with
  | some p => p.2
  | none => .none_

/-- Validation of a pydantic v1 `str` field, as run by
`QueryResponse(query=query, answer=answer)` at src/main.py line 163 (the
module uses the pre-1.0 `openai.ChatCompletion` API, whose era pins
pydantic v1 semantics): a `str` value passes unchanged, a numeric scalar
is coerced with `str()`, and a list or `None` raises `ValidationError`
(`none` here). -/
def pydanticStr : PyVal → Option String
  | .str s => some s
  | .int n => some (toString n)
  | .list _ => none
  | .none_ => none

/-- The `e.errors()` payload of the `except ValidationError` handler
(src/main.py line 169). Its element dicts are produced inside the pydantic
library, not by this repository, and no handler code inspects them before
`jsonify`, so the payload is abstracted as a list naming the failing
field. Only the status code of this branch matters to the handler. -/
def validationErrorsPayload : PyVal :=
  PyVal.list [PyVal.str "query"]

/-- create_query (src/main.py lines 130-172), the handler of `POST /query`.
`requestJson` is the parsed body (`request.json`): `none` for a JSON
`null` body, `some fields` for a JSON object. The three stage behaviours
are passed explicitly: `synth` is `generate_kubernetes_command` applied to
the extracted query, `runStage` is `execute_generated_command`, and
`formatStage` is `format_result_with_gpt` applied to the query and the raw
result. The handler:
line 134: a falsy body (null or empty object) gives 400 "Invalid JSON input";
line 139: a falsy `query` value gives 400 "No query provided";
line 147: a falsy generated command gives 500 "Failed to generate command";
line 153: `"Error" in raw_result` gives 500 with the raw result as error,
  and the `TypeError` it raises on a non-iterable raw result is caught by
  the outer `except Exception` clause (line 170), giving 500 with the
  exception message;
line 159: `"Error" in answer` gives 500 with the answer as error;
line 163: `QueryResponse(query=query, answer=answer)` validates both
  fields as pydantic `str`; a failed validation raises `ValidationError`,
  caught at lines 167-169, giving 400 with `e.errors()` as the error;
line 165: otherwise 200 with the validated query and answer. -/
def create_query (requestJson : Option (List (String × PyVal)))
    (synth : PyVal → Option String)
    (runStage : String → PyVal)
    (formatStage : PyVal → PyVal → String) : HandlerResult :=
  match requestJson with
  | none => ⟨400, [("error", .str "Invalid JSON input")], noCalls⟩
  | some fields =>
    if fields.isEmpty then
      ⟨400, [("error", .str "Invalid JSON input")], noCalls⟩
    else
      let query := dictGet fields "query"
      if pyFalsy query then
        ⟨400, [("error", .str "No query provided")], noCalls⟩
      else
        match synth query with
        | none =>
          ⟨500, [("error", .str "Failed to generate command")], ⟨true, false, false⟩⟩
        | some command =>
          if command = "" then
            ⟨500, [("error", .str "Failed to generate command")], ⟨true, false, false⟩⟩
          else
            let rawResult := runStage command
            match pyContainsError rawResult with
            | .error exnMsg =>
              ⟨500, [("error", .str exnMsg)], ⟨true, true, false⟩⟩
            | .ok true =>
              ⟨500, [("error", rawResult)], ⟨true, true, false⟩⟩
            | .ok false =>
              let answer := formatStage query rawResult
              if containsSub answer "Error" then
                ⟨500, [("error", .str answer)], ⟨true, true, true⟩⟩
              else
                match pydanticStr query with
                | some qs =>
                  ⟨200, [("query", .str qs), ("answer", .str answer)], ⟨true, true, true⟩⟩
                | none =>
                  ⟨400, [("error", validationErrorsPayload)], ⟨true, true, true⟩⟩

/-- The full handler with the module functions plugged into `create_query`
exactly as src/main.py wires them: the Synthesizer and Formatter close
over the `openai` availability flag and their chat-completion behaviours,
and the Executor closes over the behaviour of `exec`. -/
def handleQuery (openaiAvailable : Bool)
    (lmGenerate : PyVal → Except String String)
    (runExec : String → Except PyExn (Option PyVal))
    (lmFormat : PyVal → PyVal → Except String String)
    (requestJson : Option (List (String × PyVal))) : HandlerResult :=
  create_query requestJson
    (fun q => generate_kubernetes_command openaiAvailable (lmGenerate q))
    (execute_generated_command runExec)
    (fun q r => format_result_with_gpt openaiAvailable (lmFormat q r))

/-- Names visible to the executed snippet. Line 87 of src/main.py runs
`exec(command, globals(), local_vars)`: the globals of the executed code
are the full module dictionary, so every module-level binding is in scope
for the synthesized operation. -/
def execGlobalNames : List String := moduleGlobalNames

/-- A request body whose extracted query is falsy never reaches a stage:
helper covering the two 400 branches of `create_query`. -/
theorem create_query_falsy_query (synth : PyVal → Option String)
    (runStage : String → PyVal) (formatStage : PyVal → PyVal → String)
    (fields : List (String × PyVal))
    (hq : pyFalsy (dictGet fields "query") = true) :
    (create_query (some fields) synth runStage formatStage).status = 400 ∧
    (create_query (some fields) synth runStage formatStage).calls = noCalls := by
  unfold create_query
  by_cases he : fields.isEmpty <;> simp [he, hq, noCalls]

/-- Helper: with a truthy query whose synthesis yields a falsy command,
`create_query` stops after the synthesis stage with the fixed 500. -/
theorem create_query_synth_failure (synth : PyVal → Option String)
    (runStage : String → PyVal) (formatStage : PyVal → PyVal → String)
    (fields : List (String × PyVal))
    (hq : pyFalsy (dictGet fields "query") = false)
    (hs : synth (dictGet fields "query") = none ∨
          synth (dictGet fields "query") = some "") :
    create_query (some fields) synth runStage formatStage =
      ⟨500, [("error", .str "Failed to generate command")], ⟨true, false, false⟩⟩ := by
  have hne : fields.isEmpty = false := by
    cases fields with
    | nil => simp [dictGet, pyFalsy] at hq
    | cons p l => rfl
  unfold create_query
  rcases hs with h | h <;> simp [hne, hq, h]

/-- C2: every request body missing the query field or carrying an empty
query string yields HTTP 400, and none of the three pipeline stages is
invoked. -/
theorem c2_missing_or_empty_query (openaiAvailable : Bool)
    (lmGenerate : PyVal → Except String String)
    (runExec : String → Except PyExn (Option PyVal))
    (lmFormat : PyVal → PyVal → Except String String)
    (fields : List (String × PyVal))
    (h : dictGet fields "query" = PyVal.none_ ∨ dictGet fields "query" = PyVal.str "") :
    (handleQuery openaiAvailable lmGenerate runExec lmFormat (some fields)).status = 400 ∧
    (handleQuery openaiAvailable lmGenerate runExec lmFormat (some fields)).calls = noCalls := by
  have hq : pyFalsy (dictGet fields "query") = true := by
    rcases h with h | h <;> simp [h, pyFalsy]
  exact create_query_falsy_query _ _ _ fields hq

/-- C2 witness: a body without a query field gets 400 and no stage runs. -/
theorem c2_witness :
    (dictGet [("other", PyVal.str "x")] "query" = PyVal.none_ ∨
     dictGet [("other", PyVal.str "x")] "query" = PyVal.str "") ∧
    (handleQuery true (fun _ => Except.ok "cmd") (fun _ => Except.ok none)
        (fun _ _ => Except.ok "a") (some [("other", PyVal.str "x")])).status = 400 ∧
    (handleQuery true (fun _ => Except.ok "cmd") (fun _ => Except.ok none)
        (fun _ _ => Except.ok "a") (some [("other", PyVal.str "x")])).calls = noCalls :=
  ⟨Or.inl rfl,
   c2_missing_or_empty_query true (fun _ => Except.ok "cmd") (fun _ => Except.ok none)
     (fun _ _ => Except.ok "a") [("other", PyVal.str "x")] (Or.inl rfl)⟩

/-- C3: whenever the Synthesizer fails (returns no descriptor) or returns
an empty descriptor, the response is HTTP 500 and neither the Executor nor
the Formatter is invoked. -/
theorem c3_synth_failure_short_circuits (openaiAvailable : Bool)
    (lmGenerate : PyVal → Except String String)
    (runExec : String → Except PyExn (Option PyVal))
    (lmFormat : PyVal → PyVal → Except String String)
    (fields : List (String × PyVal))
    (hq : pyFalsy (dictGet fields "query") = false)
    (hs : generate_kubernetes_command openaiAvailable
            (lmGenerate (dictGet fields "query")) = none ∨
          generate_kubernetes_command openaiAvailable
            (lmGenerate (dictGet fields "query")) = some "") :
    (handleQuery openaiAvailable lmGenerate runExec lmFormat (some fields)).status = 500 ∧
    (handleQuery openaiAvailable lmGenerate runExec lmFormat (some fields)).calls.execCalled = false ∧
    (handleQuery openaiAvailable lmGenerate runExec lmFormat (some fields)).calls.formatCalled = false := by
  have h := create_query_synth_failure
      (fun q => generate_kubernetes_command openaiAvailable (lmGenerate q))
      (execute_generated_command runExec)
      (fun q r => format_result_with_gpt openaiAvailable (lmFormat q r)) fields hq hs
  unfold handleQuery
  rw [h]
  exact ⟨rfl, rfl, rfl⟩

/-- C3 witness: with the language-model handle unavailable the Synthesizer
returns no descriptor and the request gets 500 with no later stage run. -/
theorem c3_witness :
    pyFalsy (dictGet [("query", PyVal.str "how many pods?")] "query") = false ∧
    (generate_kubernetes_command false
        (Except.ok "result = 3") = none ∨
     generate_kubernetes_command false
        (Except.ok "result = 3") = some "") ∧
    (handleQuery false (fun _ => Except.ok "result = 3") (fun _ => Except.ok none)
        (fun _ _ => Except.ok "a") (some [("query", PyVal.str "how many pods?")])).status = 500 ∧
    (handleQuery false (fun _ => Except.ok "result = 3") (fun _ => Except.ok none)
        (fun _ _ => Except.ok "a")
        (some [("query", PyVal.str "how many pods?")])).calls.execCalled = false ∧
    (handleQuery false (fun _ => Except.ok "result = 3") (fun _ => Except.ok none)
        (fun _ _ => Except.ok "a")
        (some [("query", PyVal.str "how many pods?")])).calls.formatCalled = false :=
  ⟨rfl, Or.inl rfl,
   c3_synth_failure_short_circuits false (fun _ => Except.ok "result = 3")
     (fun _ => Except.ok none) (fun _ _ => Except.ok "a")
     [("query", PyVal.str "how many pods?")] rfl (Or.inl rfl)⟩

/-- Helper: whenever the execution stage produces a value on which the
`"Error"` substring check evaluates to false, the Formatter is invoked. -/
theorem create_query_formatter_runs (synth : PyVal → Option String)
    (runStage : String → PyVal) (formatStage : PyVal → PyVal → String)
    (fields : List (String × PyVal)) (cmd : String)
    (hq : pyFalsy (dictGet fields "query") = false)
    (hs : synth (dictGet fields "query") = some cmd)
    (hcmd : cmd ≠ "")
    (hraw : pyContainsError (runStage cmd) = .ok false) :
    (create_query (some fields) synth runStage formatStage).calls.formatCalled = true := by
  have hne : fields.isEmpty = false := by
    cases fields with
    | nil => simp [dictGet, pyFalsy] at hq
    | cons p l => rfl
  unfold create_query
  by_cases hans : containsSub (formatStage (dictGet fields "query") (runStage cmd)) "Error" <;>
    cases hpv : pydanticStr (dictGet fields "query") <;>
    simp [hne, hq, hs, hcmd, hraw, hans, hpv]

/-- C4 counterexample: with a stub Executor run that raises
`AttributeError` (a capability the client handle lacks) and a stub
Formatter returning "3", the handler returns HTTP 200 — not 500 — and the
Formatter IS called: the classified message "Kubernetes client method not
supported on Minikube." does not contain the substring "Error", so the
handler treats it as a successful raw result. -/
theorem c4_counterexample :
    (handleQuery true (fun _ => Except.ok "result = v1.read_node_metrics()")
        (fun _ => Except.error (PyExn.attributeError "object has no attribute read_node_metrics"))
        (fun _ _ => Except.ok "3")
        (some [("query", PyVal.str "node metrics?")])).status = 200 ∧
    (handleQuery true (fun _ => Except.ok "result = v1.read_node_metrics()")
        (fun _ => Except.error (PyExn.attributeError "object has no attribute read_node_metrics"))
        (fun _ _ => Except.ok "3")
        (some [("query", PyVal.str "node metrics?")])).calls.formatCalled = true :=
  ⟨rfl, rfl⟩

/-- C4 amended: when execution references a capability the client handle
lacks (an `AttributeError`), the Executor classifies the outcome as the
fixed message "Kubernetes client method not supported on Minikube."; but
because that message does not contain the substring "Error", the handler
does not produce a 500 at the execution check and the Formatter IS invoked
with the classified message as its raw result. -/
theorem c4_amended (openaiAvailable : Bool)
    (lmGenerate : PyVal → Except String String)
    (runExec : String → Except PyExn (Option PyVal))
    (lmFormat : PyVal → PyVal → Except String String)
    (fields : List (String × PyVal)) (cmd m : String)
    (hq : pyFalsy (dictGet fields "query") = false)
    (hs : generate_kubernetes_command openaiAvailable
            (lmGenerate (dictGet fields "query")) = some cmd)
    (hcmd : cmd ≠ "")
    (hrun : runExec (stripFences cmd) = .error (PyExn.attributeError m)) :
    execute_generated_command runExec cmd =
      PyVal.str "Kubernetes client method not supported on Minikube." ∧
    containsSub "Kubernetes client method not supported on Minikube." "Error" = false ∧
    (handleQuery openaiAvailable lmGenerate runExec lmFormat (some fields)).calls.formatCalled = true := by
  have hexec : execute_generated_command runExec cmd =
      PyVal.str "Kubernetes client method not supported on Minikube." := by
    unfold execute_generated_command
    simp [hcmd, hrun]
  refine ⟨hexec, by decide, ?_⟩
  unfold handleQuery
  exact create_query_formatter_runs _ _ _ fields cmd hq hs hcmd (by rw [hexec]; rfl)

/-- C4 witness: concrete instantiation of the amended statement. -/
theorem c4_witness :
    pyFalsy (dictGet [("query", PyVal.str "node metrics?")] "query") = false ∧
    "result = v1.read_node_metrics()" ≠ "" ∧
    execute_generated_command
      (fun _ => Except.error (PyExn.attributeError "object has no attribute read_node_metrics"))
      "result = v1.read_node_metrics()" =
        PyVal.str "Kubernetes client method not supported on Minikube." ∧
    (handleQuery true (fun _ => Except.ok "result = v1.read_node_metrics()")
        (fun _ => Except.error (PyExn.attributeError "object has no attribute read_node_metrics"))
        (fun _ _ => Except.ok "3")
        (some [("query", PyVal.str "node metrics?")])).calls.formatCalled = true := by
  have h := c4_amended true (fun _ => Except.ok "result = v1.read_node_metrics()")
    (fun _ => Except.error (PyExn.attributeError "object has no attribute read_node_metrics"))
    (fun _ _ => Except.ok "3") [("query", PyVal.str "node metrics?")]
    "result = v1.read_node_metrics()" "object has no attribute read_node_metrics"
    rfl rfl (by decide) rfl
  exact ⟨rfl, by decide, h.1, h.2.2⟩

/-- C5 counterexample: with a stub run that finishes cleanly but leaves
the slot `result` unbound and a stub Formatter returning a summary, the
handler returns HTTP 200 — not 500 — and the Formatter IS called: the
fallback value "No result returned" does not contain the substring
"Error", so the pipeline does not abort. -/
theorem c5_counterexample :
    (handleQuery true (fun _ => Except.ok "v1.list_namespace()")
        (fun _ => Except.ok none)
        (fun _ _ => Except.ok "no result")
        (some [("query", PyVal.str "list namespaces")])).status = 200 ∧
    (handleQuery true (fun _ => Except.ok "v1.list_namespace()")
        (fun _ => Except.ok none)
        (fun _ _ => Except.ok "no result")
        (some [("query", PyVal.str "list namespaces")])).calls.formatCalled = true :=
  ⟨rfl, rfl⟩

/-- C5 amended: a clean run that leaves the designated slot `result`
unbound is classified as the fallback string "No result returned"; but
because that string does not contain the substring "Error", the pipeline
does not abort: the Formatter IS invoked with the fallback as its raw
result. -/
theorem c5_amended (openaiAvailable : Bool)
    (lmGenerate : PyVal → Except String String)
    (runExec : String → Except PyExn (Option PyVal))
    (lmFormat : PyVal → PyVal → Except String String)
    (fields : List (String × PyVal)) (cmd : String)
    (hq : pyFalsy (dictGet fields "query") = false)
    (hs : generate_kubernetes_command openaiAvailable
            (lmGenerate (dictGet fields "query")) = some cmd)
    (hcmd : cmd ≠ "")
    (hrun : runExec (stripFences cmd) = .ok none) :
    execute_generated_command runExec cmd = PyVal.str "No result returned" ∧
    containsSub "No result returned" "Error" = false ∧
    (handleQuery openaiAvailable lmGenerate runExec lmFormat (some fields)).calls.formatCalled = true := by
  have hexec : execute_generated_command runExec cmd = PyVal.str "No result returned" := by
    unfold execute_generated_command
    simp [hcmd, hrun]
  refine ⟨hexec, by decide, ?_⟩
  unfold handleQuery
  exact create_query_formatter_runs _ _ _ fields cmd hq hs hcmd (by rw [hexec]; rfl)

/-- C5 witness: concrete instantiation of the amended statement. -/
theorem c5_witness :
    pyFalsy (dictGet [("query", PyVal.str "list namespaces")] "query") = false ∧
    "v1.list_namespace()" ≠ "" ∧
    execute_generated_command (fun _ => Except.ok none) "v1.list_namespace()" =
      PyVal.str "No result returned" ∧
    (handleQuery true (fun _ => Except.ok "v1.list_namespace()")
        (fun _ => Except.ok none)
        (fun _ _ => Except.ok "no result")
        (some [("query", PyVal.str "list namespaces")])).calls.formatCalled = true := by
  have h := c5_amended true (fun _ => Except.ok "v1.list_namespace()")
    (fun _ => Except.ok none) (fun _ _ => Except.ok "no result")
    [("query", PyVal.str "list namespaces")] "v1.list_namespace()"
    rfl rfl (by decide) rfl
  exact ⟨rfl, by decide, h.1, h.2.2⟩

/-- C6 counterexample: the execution context of the synthesized snippet is
NOT restricted to the control-plane handle: `exec` receives the full
module `globals()`, so module bindings other than `v1` — here the `openai`
handle and the Flask `app` — are reachable from the executed operation. -/
theorem c6_counterexample :
    "openai" ∈ execGlobalNames ∧ "app" ∈ execGlobalNames ∧
    "openai" ≠ "v1" ∧ "app" ≠ "v1" := by
  decide

/-- C6 amended: the Executor runs the snippet with the entire module
global namespace as its execution context; the control-plane handle `v1`
is among the exposed names, but so is every other module-level binding, so
the context exposes strictly more than the client handle. -/
theorem c6_amended :
    execGlobalNames = moduleGlobalNames ∧
    "v1" ∈ execGlobalNames ∧
    ∃ n, n ∈ execGlobalNames ∧ n ≠ "v1" :=
  ⟨rfl, by decide, "openai", by decide, by decide⟩

/-- C7 counterexample: no `/test_connection` route is registered on the
Flask app, so no GET /test_connection endpoint exists. -/
theorem c7_counterexample :
    "/test_connection" ∉ appRoutes.map Prod.fst := by
  decide

/-- C7 amended: the application registers exactly one route, `POST /query`;
in particular no `/test_connection` path is registered, so a
GET /test_connection request is not handled by the module. -/
theorem c7_amended :
    appRoutes = [("/query", ["POST"])] ∧
    "/test_connection" ∉ appRoutes.map Prod.fst :=
  ⟨rfl, by decide⟩

/-- C8 counterexample: a synthesis-stage failure whose exception message
is "rate limit exceeded" produces a 500 whose error field is the fixed
text "Failed to generate command", not the stage's message. -/
theorem c8_counterexample :
    (handleQuery true (fun _ => Except.error "rate limit exceeded")
        (fun _ => Except.ok none) (fun _ _ => Except.ok "a")
        (some [("query", PyVal.str "q")])).status = 500 ∧
    (handleQuery true (fun _ => Except.error "rate limit exceeded")
        (fun _ => Except.ok none) (fun _ _ => Except.ok "a")
        (some [("query", PyVal.str "q")])).body =
      [("error", PyVal.str "Failed to generate command")] ∧
    "Failed to generate command" ≠ "rate limit exceeded" :=
  ⟨rfl, rfl, by decide⟩

/-- C8 amended: the value produced by a failing execute stage and the
answer produced by a failing format stage are each forwarded verbatim as
the error field of the 500 response; a synthesis-stage failure, by
contrast, has its exception message discarded and replaced by the fixed
text "Failed to generate command". -/
theorem c8_amended :
    (∀ (synth : PyVal → Option String) (runStage : String → PyVal)
       (formatStage : PyVal → PyVal → String)
       (fields : List (String × PyVal)) (cmd : String),
        pyFalsy (dictGet fields "query") = false →
        synth (dictGet fields "query") = some cmd →
        cmd ≠ "" →
        pyContainsError (runStage cmd) = .ok true →
        (create_query (some fields) synth runStage formatStage).status = 500 ∧
        (create_query (some fields) synth runStage formatStage).body =
          [("error", runStage cmd)]) ∧
    (∀ (synth : PyVal → Option String) (runStage : String → PyVal)
       (formatStage : PyVal → PyVal → String)
       (fields : List (String × PyVal)) (cmd : String),
        pyFalsy (dictGet fields "query") = false →
        synth (dictGet fields "query") = some cmd →
        cmd ≠ "" →
        pyContainsError (runStage cmd) = .ok false →
        containsSub (formatStage (dictGet fields "query") (runStage cmd)) "Error" = true →
        (create_query (some fields) synth runStage formatStage).status = 500 ∧
        (create_query (some fields) synth runStage formatStage).body =
          [("error", PyVal.str (formatStage (dictGet fields "query") (runStage cmd)))]) ∧
    (∀ (openaiAvailable : Bool) (lmGenerate : PyVal → Except String String)
       (runStage : String → PyVal) (formatStage : PyVal → PyVal → String)
       (fields : List (String × PyVal)) (m : String),
        pyFalsy (dictGet fields "query") = false →
        lmGenerate (dictGet fields "query") = .error m →
        (create_query (some fields)
            (fun q => generate_kubernetes_command openaiAvailable (lmGenerate q))
            runStage formatStage).status = 500 ∧
        (create_query (some fields)
            (fun q => generate_kubernetes_command openaiAvailable (lmGenerate q))
            runStage formatStage).body =
          [("error", PyVal.str "Failed to generate command")]) := by
  refine ⟨?_, ?_, ?_⟩
  · intro synth runStage formatStage fields cmd hq hs hcmd hraw
    have hne : fields.isEmpty = false := by
      cases fields with
      | nil => simp [dictGet, pyFalsy] at hq
      | cons p l => rfl
    unfold create_query
    simp [hne, hq, hs, hcmd, hraw]
  · intro synth runStage formatStage fields cmd hq hs hcmd hraw hans
    have hne : fields.isEmpty = false := by
      cases fields with
      | nil => simp [dictGet, pyFalsy] at hq
      | cons p l => rfl
    unfold create_query
    simp [hne, hq, hs, hcmd, hraw, hans]
  · intro openaiAvailable lmGenerate runStage formatStage fields m hq hlm
    have hgen : generate_kubernetes_command openaiAvailable
        (lmGenerate (dictGet fields "query")) = none := by
      cases openaiAvailable <;> simp [generate_kubernetes_command, hlm]
    have h := create_query_synth_failure
        (fun q => generate_kubernetes_command openaiAvailable (lmGenerate q))
        runStage formatStage fields hq (Or.inl hgen)
    rw [h]
    exact ⟨rfl, rfl⟩

/-- C8 witness: the three parts of the amended statement at concrete
inputs — a runtime execution error is forwarded verbatim, a formatting
failure is forwarded verbatim, and a synthesis failure with message "boom"
is replaced by the fixed text. -/
theorem c8_witness :
    ((create_query (some [("query", PyVal.str "q")]) (fun _ => some "cmd")
        (fun _ => PyVal.str "Error executing command: boom")
        (fun _ _ => "a")).status = 500 ∧
     (create_query (some [("query", PyVal.str "q")]) (fun _ => some "cmd")
        (fun _ => PyVal.str "Error executing command: boom")
        (fun _ _ => "a")).body =
       [("error", PyVal.str "Error executing command: boom")]) ∧
    ((create_query (some [("query", PyVal.str "q")]) (fun _ => some "cmd")
        (fun _ => PyVal.str "3")
        (fun _ _ => "Error formatting answer.")).status = 500 ∧
     (create_query (some [("query", PyVal.str "q")]) (fun _ => some "cmd")
        (fun _ => PyVal.str "3")
        (fun _ _ => "Error formatting answer.")).body =
       [("error", PyVal.str "Error formatting answer.")]) ∧
    ((create_query (some [("query", PyVal.str "q")])
        (fun q => generate_kubernetes_command true ((fun _ => Except.error "boom") q))
        (fun _ => PyVal.str "3") (fun _ _ => "a")).status = 500 ∧
     (create_query (some [("query", PyVal.str "q")])
        (fun q => generate_kubernetes_command true ((fun _ => Except.error "boom") q))
        (fun _ => PyVal.str "3") (fun _ _ => "a")).body =
       [("error", PyVal.str "Failed to generate command")]) :=
  ⟨c8_amended.1 (fun _ => some "cmd") (fun _ => PyVal.str "Error executing command: boom")
     (fun _ _ => "a") [("query", PyVal.str "q")] "cmd" rfl rfl (by decide) rfl,
   c8_amended.2.1 (fun _ => some "cmd") (fun _ => PyVal.str "3")
     (fun _ _ => "Error formatting answer.") [("query", PyVal.str "q")] "cmd"
     rfl rfl (by decide) rfl rfl,
   c8_amended.2.2 true (fun _ => Except.error "boom") (fun _ => PyVal.str "3")
     (fun _ _ => "a") [("query", PyVal.str "q")] "boom" rfl rfl⟩

/-- C9 counterexample: the Synthesizer returns the fenced completion with
its delimiter markup intact — only surrounding whitespace is stripped — so
the descriptor it returns still contains the fence marker. -/
theorem c9_counterexample :
    generate_kubernetes_command true (Except.ok "```python\nresult = f()\n```") =
      some "```python\nresult = f()\n```" ∧
    containsSub "```python\nresult = f()\n```" "```" = true :=
  ⟨rfl, by decide⟩

/-- C9 amended: the Command Synthesizer strips only surrounding whitespace
from the raw completion (delimiter markup, when present, survives in the
returned descriptor); the fence markup is instead stripped by the Command
Executor immediately before execution. -/
theorem c9_amended :
    (∀ content, generate_kubernetes_command true (Except.ok content) =
        some (pyStrip content)) ∧
    stripFences "```python\nresult = f()\n```" = "result = f()" ∧
    containsSub (stripFences "```python\nresult = f()\n```") "```" = false :=
  ⟨fun _ => rfl, rfl, by decide⟩

/-- C10: line 31 of src/main.py reads the unimported name `os`, so the
OpenAI init block always raises `NameError` and rebinds `openai = None`;
consequently the Synthesizer returns no command for every chat behaviour,
and every well-formed POST /query body gets HTTP 500 with the error
"Failed to generate command". -/
theorem c10_openai_init_always_fails :
    moduleResolves "os" = false ∧
    moduleOpenaiAvailable = false ∧
    (∀ chat, generate_kubernetes_command moduleOpenaiAvailable chat = none) ∧
    (∀ (lmGenerate : PyVal → Except String String)
       (runExec : String → Except PyExn (Option PyVal))
       (lmFormat : PyVal → PyVal → Except String String)
       (fields : List (String × PyVal)),
        pyFalsy (dictGet fields "query") = false →
        handleQuery moduleOpenaiAvailable lmGenerate runExec lmFormat (some fields) =
          ⟨500, [("error", PyVal.str "Failed to generate command")], ⟨true, false, false⟩⟩) := by
  refine ⟨by decide, by decide, fun chat => rfl, fun lmGenerate runExec lmFormat fields hq => ?_⟩
  unfold handleQuery
  exact create_query_synth_failure _ _ _ fields hq (Or.inl rfl)

/-- C10 witness: the concrete query of the spec scenario gets 500 with the
fixed error under the module as written, whatever the stub behaviours. -/
theorem c10_witness :
    pyFalsy (dictGet [("query", PyVal.str "how many pods are running?")] "query") = false ∧
    handleQuery moduleOpenaiAvailable (fun _ => Except.ok "result = 3")
        (fun _ => Except.ok (some (PyVal.str "3"))) (fun _ _ => Except.ok "3")
        (some [("query", PyVal.str "how many pods are running?")]) =
      ⟨500, [("error", PyVal.str "Failed to generate command")], ⟨true, false, false⟩⟩ :=
  ⟨rfl,
   c10_openai_init_always_fails.2.2.2 (fun _ => Except.ok "result = 3")
     (fun _ => Except.ok (some (PyVal.str "3"))) (fun _ _ => Except.ok "3")
     [("query", PyVal.str "how many pods are running?")] rfl⟩

end QueryAgent
